import Mathlib

/-!
Shallow embedding of the jsonrpc-client-websocket correlation and dispatch
engine (src/jsonrpc-websocket.ts) together with the small JavaScript value
model the engine operates on.  Pure functions of the source become Lean
functions; the engine's mutable fields become an explicit `EngineState`
record that every operation threads through; observable side effects
(transport sends, global error callbacks, timer arming/cancellation,
future settlement) become an explicit list of `OutEvent`s; JavaScript
exceptions become a `thrown` outcome.
-/

namespace JsonRpc

/-- Model of a JavaScript value as it appears after JSON parsing, extended
with `vUndefined` because the engine distinguishes absent/undefined fields
(via `hasOwnProperty` and strict comparison against `undefined`). -/
inductive JsValue where
  | vNull
  | vUndefined
  | vBool (b : Bool)
  | vNum (n : Int)
  | vStr (s : String)
  | vArr (elems : List JsValue)
  | vObj (fields : List (String × JsValue))

/-- JavaScript truthiness of a value (`!!v`). -/
def JsValue.truthy : JsValue → Bool
  | .vNull => false
  | .vUndefined => false
  | .vBool b => b
  | .vNum n => n != 0
  | .vStr s => s != ""
  | .vArr _ => true
  | .vObj _ => true

/-- Strict comparison `v === undefined`. -/
def JsValue.isUndefined : JsValue → Bool
  | .vUndefined => true
  | _ => false

/-- Strict comparison `v === s` against a string literal: true exactly for
the equal string (`===` never coerces across types). -/
def JsValue.strictEqStr : JsValue → String → Bool
  | .vStr t, s => t == s
  | _, _ => false

/-- Lookup in a JavaScript-object field list (`obj[key]`, first binding wins;
objects built by the engine have unique keys). -/
def objGet {α : Type} : List (String × α) → String → Option α
  | [], _ => none
  | (k, v) :: rest, key => if k = key then some v else objGet rest key

/-- Assignment `obj[key] = v`: replaces an existing binding in place,
otherwise appends (JavaScript objects keep insertion order). -/
def objSet {α : Type} : List (String × α) → String → α → List (String × α)
  | [], key, v => [(key, v)]
  | (k, w) :: rest, key, v =>
      if k = key then (key, v) :: rest else (k, w) :: objSet rest key v

/-- Deletion `delete obj[key]`: removes the binding for `key` (all
occurrences; engine-built objects have unique keys anyway). -/
def objDelete {α : Type} : List (String × α) → String → List (String × α)
  | [], _ => []
  | (k, v) :: rest, key =>
      if k = key then objDelete rest key else (k, v) :: objDelete rest key

/-- `Object.prototype.hasOwnProperty.call(v, key)` for the envelope keys the
engine queries (`id`, `result`, `error`, `method`), which are never own
properties of primitives or arrays.  Call sites guard the receiver with
truthiness, so the null/undefined TypeError cannot occur there. -/
def JsValue.hasProp : JsValue → String → Bool
  | .vObj fields, key => (objGet fields key).isSome
  | _, _ => false

/-- Property access `v.key`.  `none` models the TypeError thrown when
reading a property of `null` or `undefined`; on other primitives the
envelope keys the engine reads are absent, giving `undefined`. -/
def JsValue.getProp : JsValue → String → Option JsValue
  | .vNull, _ => none
  | .vUndefined, _ => none
  | .vObj fields, key => some ((objGet fields key).getD .vUndefined)
  | _, _ => some .vUndefined

/-- Property access at call sites where the receiver is known truthy
(hence not null/undefined), so no TypeError is possible. -/
def JsValue.propD (v : JsValue) (key : String) : JsValue :=
  (v.getProp key).getD .vUndefined

/-- `String.prototype.toLowerCase()` on the ASCII range the engine's method
names use (character-by-character lowering, kept kernel-reducible). -/
def jsToLowerCase (s : String) : String := String.mk (s.data.map Char.toLower)

/-- `typeof v`. -/
def jsTypeof : JsValue → String
  | .vUndefined => "undefined"
  | .vNull => "object"
  | .vBool _ => "boolean"
  | .vNum _ => "number"
  | .vStr _ => "string"
  | .vArr _ => "object"
  | .vObj _ => "object"

mutual
/-- JavaScript string coercion `String(v)`, as used by template literals
and by property-key coercion (`obj[v]`). -/
def jsToString : JsValue → String
  | .vNull => "null"
  | .vUndefined => "undefined"
  | .vBool b => if b then "true" else "false"
  | .vNum n => toString n
  | .vStr s => s
  | .vArr elems => jsArrayToString elems
  | .vObj _ => "[object Object]"

/-- `Array.prototype.toString`: elements joined by commas, with null and
undefined elements rendered empty. -/
def jsArrayToString : List JsValue → String
  | [] => ""
  | x :: rest =>
      (match x with
        | .vNull => ""
        | .vUndefined => ""
        | v => jsToString v)
      ++ (if rest.isEmpty then "" else "," ++ jsArrayToString rest)
end

/-- One character of JSON string escaping (the library serializer is an
external collaborator; this models its behaviour on the characters the
engine's payloads contain). -/
def jsonEscapeChar (c : Char) : String :=
  if c = '"' then "\\\""
  else if c = '\\' then "\\\\"
  else if c = '\n' then "\\n"
  else if c = '\r' then "\\r"
  else if c = '\t' then "\\t"
  else String.singleton c

/-- A JSON string literal for `s`. -/
def jsonQuote (s : String) : String :=
  "\"" ++ String.join (s.toList.map jsonEscapeChar) ++ "\""

mutual
/-- `JSON.stringify(v)`; `none` models the `undefined` result for an
undefined top-level value. -/
def jsStringify : JsValue → Option String
  | .vUndefined => none
  | .vNull => some "null"
  | .vBool b => some (if b then "true" else "false")
  | .vNum n => some (toString n)
  | .vStr s => some (jsonQuote s)
  | .vArr elems => some ("[" ++ String.intercalate "," (jsStringifyArrElems elems) ++ "]")
  | .vObj fields => some ("\x7b" ++ String.intercalate "," (jsStringifyObjEntries fields) ++ "\x7d")

/-- Array elements under `JSON.stringify`: undefined elements become null. -/
def jsStringifyArrElems : List JsValue → List String
  | [] => []
  | x :: rest => ((jsStringify x).getD "null") :: jsStringifyArrElems rest

/-- Object entries under `JSON.stringify`: undefined-valued keys are
skipped. -/
def jsStringifyObjEntries : List (String × JsValue) → List String
  | [] => []
  | (k, v) :: rest =>
      match jsStringify v with
      | none => jsStringifyObjEntries rest
      | some s => (jsonQuote k ++ ":" ++ s) :: jsStringifyObjEntries rest
end

/-! ## Engine data model (jsonrpc.model.ts and jsonrpc-websocket.ts) -/

/-! Error codes of jsonrpc.model.ts (`JsonRpcErrorCodes`). -/
namespace JsonRpcErrorCodes

def PARSE_ERROR : Int := -32700
def INVALID_REQUEST : Int := -32600
def METHOD_NOT_FOUND : Int := -32601
def INVALID_PARAMS : Int := -32602
def INTERNAL_ERROR : Int := -32603
def INVALID_RESPONSE : Int := -32001
def REQUEST_TIMEOUT : Int := -32002

end JsonRpcErrorCodes

/-- `WebsocketReadyStates` of jsonrpc-websocket.ts. -/
inductive WebsocketReadyStates where
  | CONNECTING
  | OPEN
  | CLOSING
  | CLOSED
deriving DecidableEq, Repr

/-- `JsonRpcRequest` of jsonrpc.model.ts, as the engine consumes it after
the `data as JsonRpcRequest` cast: `method` must already be a string
(`request.method.toLowerCase()` would throw otherwise), `id` and `params`
stay arbitrary JavaScript values (`vUndefined` when the field is absent). -/
structure JsonRpcRequest where
  jsonrpc : String
  id : JsValue
  method : String
  params : JsValue

/-- `PendingRequest` of jsonrpc-websocket.ts: the original request and the
armed timer handle.  The entry's `DeferredPromise` is represented
implicitly: settling it is an `OutEvent` naming the entry's table key. -/
structure PendingRequest where
  request : JsonRpcRequest
  timeout : Nat

/-- `RpcMethod`: a registered handler.  `length` is the function's declared
arity (`method.length`), `paramNames` its declared parameter names as
reported by get-parameter-names, and `run` its behaviour on positional
arguments (`Except.error` models a thrown exception). -/
structure RpcMethod where
  length : Nat
  paramNames : List String
  run : List JsValue → Except JsValue JsValue

/-- The mutable fields of a `JsonRpcWebsocket` instance, plus `timerSeq`,
a fresh-handle counter standing in for the runtime's `setTimeout` handle
allocation.  `websocket = none` models `this.websocket === undefined`;
`some s` a transport instance whose `readyState` is `s`.  Both keyed maps
use string keys because JavaScript coerces every property key to a string
(`pendingRequests[response.id]` can therefore also match on a string id). -/
structure EngineState where
  websocket : Option WebsocketReadyStates
  requestTimeoutMs : Nat
  requestId : Int
  pendingRequests : List (String × PendingRequest)
  rpcMethods : List (String × RpcMethod)
  timerSeq : Nat

/-- Observable effects of one engine step: frames written to the transport,
invocations of the global `onError` callback, timer arming/cancellation,
and settlement of a pending entry's deferred promise (named by table key). -/
inductive OutEvent where
  | send (frame : JsValue)
  | globalError (code : Int) (message : String)
  | armTimer (handle : Nat) (requestId : Int)
  | clearTimer (handle : Nat)
  | resolveFuture (key : String) (value : JsValue)
  | rejectFuture (key : String) (value : JsValue)

/-- Result of a dispatch step: either it ran to completion or a JavaScript
exception escaped (`thrown`); in both cases the events already emitted and
the state reached are recorded. -/
inductive HandleOutcome where
  | ok (events : List OutEvent) (st : EngineState)
  | thrown (events : List OutEvent) (st : EngineState)

def HandleOutcome.events : HandleOutcome → List OutEvent
  | .ok evs _ => evs
  | .thrown evs _ => evs

def HandleOutcome.state : HandleOutcome → EngineState
  | .ok _ st => st
  | .thrown _ st => st

def HandleOutcome.isThrown : HandleOutcome → Bool
  | .ok _ _ => false
  | .thrown _ _ => true

/-- Prepend already-emitted events to an outcome. -/
def HandleOutcome.prepend (evs : List OutEvent) : HandleOutcome → HandleOutcome
  | .ok evs2 st => .ok (evs ++ evs2) st
  | .thrown evs2 st => .thrown (evs ++ evs2) st

/-- Result of `call`: a rejected promise (with the rejection's error code
and message) or a pending promise tied to the new table entry. -/
inductive CallOutcome where
  | rejected (code : Int) (message : String)
  | pending (key : String)
deriving DecidableEq, Repr

def isSendEvt : OutEvent → Bool
  | .send _ => true
  | _ => false

def isGlobalErrorEvt : OutEvent → Bool
  | .globalError _ _ => true
  | _ => false

def isArmTimerEvt : OutEvent → Bool
  | .armTimer _ _ => true
  | _ => false

def isSettleEvt : OutEvent → Bool
  | .resolveFuture _ _ => true
  | .rejectFuture _ _ => true
  | _ => false

def hasSendEvt (evs : List OutEvent) : Bool := evs.any isSendEvt
def hasGlobalErrorEvt (evs : List OutEvent) : Bool := evs.any isGlobalErrorEvt
def hasArmTimerEvt (evs : List OutEvent) : Bool := evs.any isArmTimerEvt
def hasSettleEvt (evs : List OutEvent) : Bool := evs.any isSettleEvt

/-! ## Engine operations (jsonrpc-websocket.ts) -/

namespace JsonRpcWebsocket

/-- `this.jsonRpcVersion` (initialized to the fixed protocol version). -/
def jsonRpcVersion : String := "2.0"

/-- The `state` getter: the transport's ready state, or CLOSED when no
transport exists. -/
def state (st : EngineState) : WebsocketReadyStates :=
  match st.websocket with
  | some s => s
  | none => WebsocketReadyStates.CLOSED

/-- `on(methodName, callback)`: store the handler under the lowercase
method name. -/
def «on» (st : EngineState) (methodName : String) (callback : RpcMethod) : EngineState :=
  { st with rpcMethods := objSet st.rpcMethods (jsToLowerCase methodName) callback }

/-- `off(methodName)`: delete the lowercase entry. -/
def off (st : EngineState) (methodName : String) : EngineState :=
  { st with rpcMethods := objDelete st.rpcMethods (jsToLowerCase methodName) }

/-- The method-registry lookup of handleRequest
(`this.rpcMethods[request.method.toLowerCase()]`). -/
def lookupMethod (st : EngineState) (name : String) : Option RpcMethod :=
  objGet st.rpcMethods (jsToLowerCase name)

/-- `respond(id, result, error)`.  Throws when the websocket is not open or
when result and error are both truthy; otherwise serializes and sends the
response frame (fields in the construction order of the source).  The
transport's send is modelled as succeeding; its failure would rethrow. -/
def respond (st : EngineState) (id : JsValue) (result : JsValue) (error : JsValue) :
    HandleOutcome :=
  if st.websocket = none ∨ state st ≠ WebsocketReadyStates.OPEN then
    HandleOutcome.thrown [] st
  else if result.truthy && error.truthy then
    HandleOutcome.thrown [] st
  else
    HandleOutcome.ok
      [OutEvent.send (JsValue.vObj
        [("jsonrpc", JsValue.vStr jsonRpcVersion), ("error", error),
         ("id", id), ("result", result)])] st

/-- `respondOk(id, result)`. -/
def respondOk (st : EngineState) (id : JsValue) (result : JsValue) : HandleOutcome :=
  respond st id result JsValue.vUndefined

/-- `respondError(id, error)`. -/
def respondError (st : EngineState) (id : JsValue) (error : JsValue) : HandleOutcome :=
  respond st id JsValue.vUndefined error

/-- `handleError(code, message, requestId)`: always invoke the global error
callback, and additionally send an error response when `requestId` is
truthy. -/
def handleError (st : EngineState) (code : Int) (message : String) (requestId : JsValue) :
    HandleOutcome :=
  if requestId.truthy then
    HandleOutcome.prepend [OutEvent.globalError code message]
      (respondError st requestId
        (JsValue.vObj [("code", JsValue.vNum code), ("message", JsValue.vStr message)]))
  else
    HandleOutcome.ok [OutEvent.globalError code message] st

/-- The shared INVALID_PARAMS message of the named-parameters branch
(template literals render the name/key arrays comma-joined). -/
def namedParamsError (methodName : String) (parameterNames : List String)
    (keys : List String) : String :=
  "Invalid parameters. Method \x27" ++ methodName ++ "\x27 expects parameters [" ++
    String.intercalate "," parameterNames ++ "], but got [" ++
    String.intercalate "," keys ++ "]"

/-- The `parameterNames.forEach` loop of getRequestParams: look each
declared name up in the params object, throwing on a strictly-undefined
value, and collect the values in declared order. -/
def collectNamedParams (methodName : String) (parameterNames : List String)
    (fields : List (String × JsValue)) : List String → Except String (List JsValue)
  | [] => Except.ok []
  | n :: rest =>
      let paramValue := (objGet fields n).getD JsValue.vUndefined
      if paramValue.isUndefined then
        Except.error (namedParamsError methodName parameterNames (fields.map Prod.fst))
      else
        match collectNamedParams methodName parameterNames fields rest with
        | Except.ok vs => Except.ok (paramValue :: vs)
        | Except.error e => Except.error e

/-- `getRequestParams(method, request)`: adapt the request's params to the
handler.  Falsy params (absent, null, 0, empty string, false) give zero
arguments; an array must match the declared arity; an object must match the
declared arity by key count and bind every declared name to a value other
than `undefined`; anything else is rejected by type. -/
def getRequestParams (method : RpcMethod) (request : JsonRpcRequest) :
    Except String (List JsValue) :=
  if request.params.truthy then
    match request.params with
    | JsValue.vArr elems =>
        if method.length ≠ elems.length then
          Except.error ("Invalid parameters. Method \x27" ++ request.method ++
            "\x27 expects " ++ toString method.length ++ " parameters, but got " ++
            toString elems.length)
        else
          Except.ok elems
    | JsValue.vObj fields =>
        if method.length ≠ fields.length then
          Except.error (namedParamsError request.method method.paramNames
            (fields.map Prod.fst))
        else
          collectNamedParams request.method method.paramNames fields method.paramNames
    | other =>
        Except.error ("Invalid parameters. Expected array or object, but got " ++
          jsTypeof other)
  else
    Except.ok []

/-- The body of handleRequest after a successful registry lookup: adapt the
params (INVALID_PARAMS via handleError on failure), invoke the handler, and
respond — success or error — only when the request's id is truthy.  A
thrown handler exception is caught and converted into an error response. -/
def invokeMethod (st : EngineState) (method : RpcMethod) (request : JsonRpcRequest) :
    HandleOutcome :=
  match getRequestParams method request with
  | Except.error msg =>
      handleError st JsonRpcErrorCodes.INVALID_PARAMS msg request.id
  | Except.ok requestParams =>
      match method.run requestParams with
      | Except.ok result =>
          if request.id.truthy then respondOk st request.id result
          else HandleOutcome.ok [] st
      | Except.error e =>
          if request.id.truthy then respondError st request.id e
          else HandleOutcome.ok [] st

/-- `handleRequest(request)`: case-insensitive registry lookup, then
dispatch; an unknown method is reported via handleError with the request's
id. -/
def handleRequest (st : EngineState) (request : JsonRpcRequest) : HandleOutcome :=
  match lookupMethod st request.method with
  | none =>
      handleError st JsonRpcErrorCodes.METHOD_NOT_FOUND
        ("Method \x27" ++ request.method ++ "\x27 was not found") request.id
  | some method => invokeMethod st method request

/-- `handleResponse(response)`: look the pending entry up under the
response's id (JavaScript coerces the property key to a string).  No entry:
global INTERNAL_ERROR only.  Entry found: cancel its timer, then reject the
future with a synthetic INVALID_RESPONSE when result and error are both
present, reject with the inbound response when error is present, and
resolve with the inbound response otherwise.  The entry itself is not
removed from the table. -/
def handleResponse (st : EngineState) (response : JsValue) :
    List OutEvent × EngineState :=
  let id := response.propD "id"
  match objGet st.pendingRequests (jsToString id) with
  | none =>
      ([OutEvent.globalError JsonRpcErrorCodes.INTERNAL_ERROR
          ("Received a response with id " ++ jsToString id ++
           ", which does not match any requests made by this client")], st)
  | some activeRequest =>
      (OutEvent.clearTimer activeRequest.timeout ::
        (if response.hasProp "result" && response.hasProp "error" then
          [OutEvent.rejectFuture (jsToString id) (JsValue.vObj
            [("error", JsValue.vObj
              [("code", JsValue.vNum JsonRpcErrorCodes.INVALID_RESPONSE),
               ("message", JsValue.vStr
                 ("Invalid response. Either result or error must be set, but not both. " ++
                  ((jsStringify response).getD "undefined")))]),
             ("id", activeRequest.request.id),
             ("jsonrpc", JsValue.vStr jsonRpcVersion)])]
        else if response.hasProp "error" then
          [OutEvent.rejectFuture (jsToString id) response]
        else
          [OutEvent.resolveFuture (jsToString id) response]), st)

/-- `setupRequestTimeout(requestId)` — the arming half: allocate a timer
handle for the entry (the runtime's `setTimeout` return value, modelled by
the `timerSeq` counter). -/
def setupRequestTimeout (st : EngineState) (requestId : Int) :
    Nat × EngineState × List OutEvent :=
  (st.timerSeq, { st with timerSeq := st.timerSeq + 1 },
   [OutEvent.armTimer st.timerSeq requestId])

/-- The timer callback of setupRequestTimeout, run on expiry: a vanished
entry is a no-op; otherwise build the synthetic REQUEST_TIMEOUT response
(same id as the original request, message naming the configured duration),
remove the entry from the table, and reject the future. -/
def requestTimeoutFired (st : EngineState) (requestId : Int) :
    List OutEvent × EngineState :=
  match objGet st.pendingRequests (toString requestId) with
  | none => ([], st)
  | some activeRequest =>
      ([OutEvent.rejectFuture (toString requestId) (JsValue.vObj
          [("error", JsValue.vObj
            [("code", JsValue.vNum JsonRpcErrorCodes.REQUEST_TIMEOUT),
             ("message", JsValue.vStr
               ("Request " ++ jsToString activeRequest.request.id ++
                " exceeded the maximum time of " ++ toString st.requestTimeoutMs ++
                "ms and was aborted"))]),
           ("id", activeRequest.request.id),
           ("jsonrpc", JsValue.vStr jsonRpcVersion)])],
       { st with pendingRequests := objDelete st.pendingRequests (toString requestId) })

/-- The outbound frame of a request (fields in construction order). -/
def requestFrame (request : JsonRpcRequest) : JsValue :=
  JsValue.vObj
    [("id", request.id), ("jsonrpc", JsValue.vStr request.jsonrpc),
     ("method", JsValue.vStr request.method), ("params", request.params)]

/-- `createPendingRequest(request)`: arm the timeout and insert the entry
under the request's id. -/
def createPendingRequest (st : EngineState) (request : JsonRpcRequest)
    (requestIdNum : Int) : EngineState × List OutEvent :=
  let armed := setupRequestTimeout st requestIdNum
  ({ armed.2.1 with pendingRequests :=
      (objSet armed.2.1.pendingRequests (toString requestIdNum)
        { request := request, timeout := armed.1 }) },
   armed.2.2)

/-- `call(method, params)`.  Not open: reject with INTERNAL_ERROR before
any transport interaction.  Otherwise allocate the next id (`++requestId`),
send the frame (`sendFails` is the transport oracle: `true` means
`websocket.send` threw, whose message embeds the thrown exception and is
abstracted here to its fixed prefix), and only on send success create the
pending entry and arm its timer. -/
def call (st : EngineState) (method : String) (params : JsValue)
    (sendFails : Bool) : CallOutcome × EngineState × List OutEvent :=
  if st.websocket = none ∨ state st ≠ WebsocketReadyStates.OPEN then
    (CallOutcome.rejected JsonRpcErrorCodes.INTERNAL_ERROR "The websocket is not opened",
     st, [])
  else
    let newId := st.requestId + 1
    let st1 := { st with requestId := newId }
    let request : JsonRpcRequest :=
      { jsonrpc := jsonRpcVersion, id := JsValue.vNum newId,
        method := method, params := params }
    if sendFails then
      (CallOutcome.rejected JsonRpcErrorCodes.INTERNAL_ERROR "Internal error.",
       st1, [OutEvent.send (requestFrame request)])
    else
      let created := createPendingRequest st1 request newId
      (CallOutcome.pending (toString newId), created.1,
       OutEvent.send (requestFrame request) :: created.2)

/-- Line 216 of handleMessage:
`const requestId = isRequest && data.id ? data.id : undefined`. -/
def inboundRequestId (data : JsValue) : JsValue :=
  if (data.truthy && data.hasProp "method") && (data.propD "id").truthy then
    data.propD "id"
  else
    JsValue.vUndefined

/-- The `data as JsonRpcRequest` cast feeding handleRequest:
`request.method.toLowerCase()` throws unless the method field is a
string. -/
def handleRequestRaw (st : EngineState) (data : JsValue) : HandleOutcome :=
  match data.propD "method" with
  | JsValue.vStr m =>
      handleRequest st
        { jsonrpc := jsonRpcVersion, id := data.propD "id",
          method := m, params := data.propD "params" }
  | _ => HandleOutcome.thrown [] st

/-- `handleMessage(msg)` after the external JSON codec ran: `none` models a
parse failure (PARSE_ERROR, message abstracted to its fixed prefix since it
embeds the codec's exception).  On parsed data: classify by shape, read
`data.jsonrpc` (a TypeError when data is null or undefined), enforce the
protocol version before any shape dispatch, then dispatch to response,
request, or unknown-data handling. -/
def handleMessage (st : EngineState) (parsed : Option JsValue) : HandleOutcome :=
  match parsed with
  | none =>
      handleError st JsonRpcErrorCodes.PARSE_ERROR "Invalid JSON was received."
        JsValue.vUndefined
  | some data =>
      let isResponse := data.truthy && data.hasProp "id" &&
        (data.hasProp "result" || data.hasProp "error")
      let isRequest := data.truthy && data.hasProp "method"
      match data.getProp "jsonrpc" with
      | none => HandleOutcome.thrown [] st
      | some versionField =>
          if !versionField.truthy || !versionField.strictEqStr jsonRpcVersion then
            handleError st JsonRpcErrorCodes.INVALID_REQUEST
              ("Invalid JSON RPC protocol version. Expecting " ++ jsonRpcVersion ++
               ", but got " ++ jsToString versionField)
              (inboundRequestId data)
          else if isResponse then
            let handled := handleResponse st data
            HandleOutcome.ok handled.1 handled.2
          else if isRequest then
            handleRequestRaw st data
          else
            handleError st JsonRpcErrorCodes.INVALID_REQUEST
              ("Received unknown data: " ++ ((jsStringify data).getD "undefined"))
              (inboundRequestId data)

end JsonRpcWebsocket

/-! ## Concrete instances used to evaluate the development on closed inputs -/

/-- A freshly opened session with the README's 500 ms request timeout. -/
def stOpen : EngineState :=
  { websocket := some WebsocketReadyStates.OPEN, requestTimeoutMs := 500,
    requestId := 0, pendingRequests := [], rpcMethods := [], timerSeq := 0 }

/-- A pending entry for request id 1 whose timer handle is 7. -/
def entryA : PendingRequest :=
  { request := { jsonrpc := "2.0", id := JsValue.vNum 1, method := "test",
                 params := JsValue.vUndefined },
    timeout := 7 }

/-- An open session with one outstanding request (id 1). -/
def stPending : EngineState :=
  { stOpen with pendingRequests := [("1", entryA)] }

/-- A well-formed success response for request id 1. -/
def respOkFrame : JsValue :=
  JsValue.vObj
    [("jsonrpc", JsValue.vStr "2.0"), ("id", JsValue.vNum 1),
     ("result", JsValue.vNum 42)]

/-- A protocol-violating response for id 1 carrying result and error. -/
def respBothFrame : JsValue :=
  JsValue.vObj
    [("jsonrpc", JsValue.vStr "2.0"), ("id", JsValue.vNum 1),
     ("result", JsValue.vNum 42),
     ("error", JsValue.vObj
       [("code", JsValue.vNum 1), ("message", JsValue.vStr "boom")])]

/-- An inbound frame with a wrong protocol version that carries an id but
no method (a response-shaped frame). -/
def mismatchFrame : JsValue :=
  JsValue.vObj
    [("jsonrpc", JsValue.vStr "1.0"), ("id", JsValue.vNum 5),
     ("result", JsValue.vNum 1)]

/-- A two-parameter handler like the README's sum example. -/
def sumMethod : RpcMethod :=
  { length := 2, paramNames := ["a", "b"],
    run := fun args =>
      match args with
      | [JsValue.vNum a, JsValue.vNum b] => Except.ok (JsValue.vNum (a + b))
      | _ => Except.error (JsValue.vStr "bad arguments") }

/-- A one-parameter handler. -/
def oneParamMethod : RpcMethod :=
  { length := 1, paramNames := ["a"], run := fun _ => Except.ok JsValue.vUndefined }

/-- A request binding the declared parameter to the falsy value 0. -/
def reqFalsyParam : JsonRpcRequest :=
  { jsonrpc := "2.0", id := JsValue.vNum 1, method := "m",
    params := JsValue.vObj [("a", JsValue.vNum 0)] }

/-- A request for an unregistered method. -/
def reqFoo : JsonRpcRequest :=
  { jsonrpc := "2.0", id := JsValue.vNum 1, method := "foo",
    params := JsValue.vUndefined }

/-- A notification-style request whose id is the falsy number 0. -/
def reqZeroId : JsonRpcRequest :=
  { jsonrpc := "2.0", id := JsValue.vNum 0, method := "foo",
    params := JsValue.vUndefined }

/-! ## Helper lemmas about the keyed-map primitives -/

theorem objGet_objSet_self {α : Type} (l : List (String × α)) (k : String) (v : α) :
    objGet (objSet l k v) k = some v := by
  induction l with
  | nil => simp [objSet, objGet]
  | cons p rest ih =>
      obtain ⟨pk, pv⟩ := p
      by_cases h : pk = k
      · simp [objSet, objGet, h]
      · simp [objSet, objGet, h, ih]

theorem objGet_objDelete_self {α : Type} (l : List (String × α)) (k : String) :
    objGet (objDelete l k) k = none := by
  induction l with
  | nil => simp [objDelete, objGet]
  | cons p rest ih =>
      obtain ⟨pk, pv⟩ := p
      by_cases h : pk = k
      · simp [objDelete, h, ih]
      · simp [objDelete, objGet, h, ih]

theorem objDelete_eq_of_objGet_none {α : Type} (l : List (String × α)) (k : String)
    (h : objGet l k = none) : objDelete l k = l := by
  induction l with
  | nil => simp [objDelete]
  | cons p rest ih =>
      obtain ⟨pk, pv⟩ := p
      by_cases hk : pk = k
      · simp [objGet, hk] at h
      · simp only [objGet, hk, if_false, if_neg hk] at h
        simp [objDelete, hk, ih h]

/-! ## Helper lemmas about the respond/handleError layer -/

theorem respond_open (st : EngineState) (id result error : JsValue)
    (hopen : st.websocket = some WebsocketReadyStates.OPEN) :
    JsonRpcWebsocket.respond st id result error =
      (if result.truthy && error.truthy then HandleOutcome.thrown [] st
       else HandleOutcome.ok
        [OutEvent.send (JsValue.vObj
          [("jsonrpc", JsValue.vStr JsonRpcWebsocket.jsonRpcVersion), ("error", error),
           ("id", id), ("result", result)])] st) := by
  simp [JsonRpcWebsocket.respond, JsonRpcWebsocket.state, hopen]

theorem truthy_vUndefined : JsValue.vUndefined.truthy = false := rfl

theorem truthy_vObj (fields : List (String × JsValue)) :
    (JsValue.vObj fields).truthy = true := rfl

theorem handleError_open (st : EngineState) (code : Int) (message : String)
    (requestId : JsValue) (hopen : st.websocket = some WebsocketReadyStates.OPEN) :
    JsonRpcWebsocket.handleError st code message requestId =
      (if requestId.truthy then
        HandleOutcome.ok
          [OutEvent.globalError code message,
           OutEvent.send (JsValue.vObj
             [("jsonrpc", JsValue.vStr JsonRpcWebsocket.jsonRpcVersion),
              ("error", JsValue.vObj
                [("code", JsValue.vNum code), ("message", JsValue.vStr message)]),
              ("id", requestId), ("result", JsValue.vUndefined)])] st
       else HandleOutcome.ok [OutEvent.globalError code message] st) := by
  cases h : requestId.truthy with
  | true =>
      simp [JsonRpcWebsocket.handleError, h, JsonRpcWebsocket.respondError,
        respond_open st requestId JsValue.vUndefined _ hopen, truthy_vUndefined,
        HandleOutcome.prepend]
  | false => simp [JsonRpcWebsocket.handleError, h]

theorem handleError_head (st : EngineState) (code : Int) (message : String)
    (requestId : JsValue) :
    (JsonRpcWebsocket.handleError st code message requestId).events.head? =
      some (OutEvent.globalError code message) := by
  unfold JsonRpcWebsocket.handleError
  cases h : requestId.truthy with
  | true =>
      simp only [h, if_true]
      cases JsonRpcWebsocket.respondError st requestId
        (JsValue.vObj [("code", JsValue.vNum code), ("message", JsValue.vStr message)]) with
      | ok evs st2 => simp [HandleOutcome.prepend, HandleOutcome.events]
      | thrown evs st2 => simp [HandleOutcome.prepend, HandleOutcome.events]
  | false => simp [h, HandleOutcome.events]

theorem inboundRequestId_truthy (data : JsValue) :
    (JsonRpcWebsocket.inboundRequestId data).truthy =
      ((data.truthy && data.hasProp "method") && (data.propD "id").truthy) := by
  unfold JsonRpcWebsocket.inboundRequestId
  cases hc : ((data.truthy && data.hasProp "method") && (data.propD "id").truthy) with
  | true =>
      have hc2 := hc
      simp only [Bool.and_eq_true] at hc2
      simp [hc, hc2.2]
  | false => simp [hc, truthy_vUndefined]

/-! ## Claim theorems -/

/-- C10: for an inbound frame whose parse yields a null value (such as the
text frame "null"), handleMessage raises neither PARSE_ERROR nor
INVALID_REQUEST on the global error channel and sends nothing: parsing
succeeded, and the version check dereferences the null value, so the
handler throws a TypeError having emitted no event at all. -/
theorem C10_null_frame_throws (st : EngineState) :
    JsonRpcWebsocket.handleMessage st (some JsValue.vNull) =
      HandleOutcome.thrown [] st := rfl

/-- Witness for C10 on the concrete open session. -/
theorem C10_null_frame_throws_witness :
    JsonRpcWebsocket.handleMessage stOpen (some JsValue.vNull) =
      HandleOutcome.thrown [] stOpen :=
  C10_null_frame_throws stOpen

/-- C9: an inbound request whose id is the falsy number 0 is handled like a
notification: whether the method is unregistered, parameter adaptation
fails, or the handler returns or throws, no response frame is ever sent,
because the engine tests the id for truthiness rather than presence. -/
theorem C9_zero_id_never_answered (st : EngineState) (request : JsonRpcRequest)
    (h : request.id = JsValue.vNum 0) :
    hasSendEvt (JsonRpcWebsocket.handleRequest st request).events = false := by
  have htr : request.id.truthy = false := by rw [h]; rfl
  cases hL : JsonRpcWebsocket.lookupMethod st request.method with
  | none =>
      simp [JsonRpcWebsocket.handleRequest, hL, JsonRpcWebsocket.handleError, htr,
        hasSendEvt, HandleOutcome.events, isSendEvt]
  | some m =>
      cases hP : JsonRpcWebsocket.getRequestParams m request with
      | error msg =>
          simp [JsonRpcWebsocket.handleRequest, hL, JsonRpcWebsocket.invokeMethod, hP,
            JsonRpcWebsocket.handleError, htr, hasSendEvt, HandleOutcome.events, isSendEvt]
      | ok args =>
          cases hR : m.run args with
          | ok r =>
              simp [JsonRpcWebsocket.handleRequest, hL, JsonRpcWebsocket.invokeMethod, hP,
                hR, htr, hasSendEvt, HandleOutcome.events]
          | error e =>
              simp [JsonRpcWebsocket.handleRequest, hL, JsonRpcWebsocket.invokeMethod, hP,
                hR, htr, hasSendEvt, HandleOutcome.events]

/-- Witness for C9: the request with id 0 for an unregistered method gets
no response from a fresh open session. -/
theorem C9_zero_id_never_answered_witness :
    reqZeroId.id = JsValue.vNum 0 ∧
    hasSendEvt (JsonRpcWebsocket.handleRequest stOpen reqZeroId).events = false :=
  ⟨rfl, C9_zero_id_never_answered stOpen reqZeroId rfl⟩

/-- C7: when a pending request's timer fires before a matching response,
the entry is removed from the table and the future is rejected with a
synthetic response whose error code is REQUEST_TIMEOUT (-32002), whose id
is the original request's id, and whose message names the configured
timeout duration. -/
theorem C7_timeout_rejects (st : EngineState) (rid : Int) (ar : PendingRequest)
    (h : objGet st.pendingRequests (toString rid) = some ar) :
    JsonRpcWebsocket.requestTimeoutFired st rid =
      ([OutEvent.rejectFuture (toString rid) (JsValue.vObj
          [("error", JsValue.vObj
            [("code", JsValue.vNum JsonRpcErrorCodes.REQUEST_TIMEOUT),
             ("message", JsValue.vStr
               ("Request " ++ jsToString ar.request.id ++
                " exceeded the maximum time of " ++ toString st.requestTimeoutMs ++
                "ms and was aborted"))]),
           ("id", ar.request.id),
           ("jsonrpc", JsValue.vStr JsonRpcWebsocket.jsonRpcVersion)])],
       { st with pendingRequests := objDelete st.pendingRequests (toString rid) }) ∧
    objGet (JsonRpcWebsocket.requestTimeoutFired st rid).2.pendingRequests
      (toString rid) = none := by
  constructor
  · simp [JsonRpcWebsocket.requestTimeoutFired, h]
  · simp [JsonRpcWebsocket.requestTimeoutFired, h, objGet_objDelete_self]

/-- Witness for C7: firing the timer of the concrete pending entry removes
it from the table. -/
theorem C7_timeout_rejects_witness :
    objGet stPending.pendingRequests (toString (1 : Int)) = some entryA ∧
    objGet (JsonRpcWebsocket.requestTimeoutFired stPending 1).2.pendingRequests
      (toString (1 : Int)) = none :=
  ⟨rfl, (C7_timeout_rejects stPending 1 entryA rfl).2⟩

/-- C3: for an inbound response matching a pending entry: result and error
both present rejects the future with a synthetic INVALID_RESPONSE (-32001)
error embedding the stringified offending payload; error alone rejects with
the inbound response; otherwise — in particular when result and error are
both absent — the future resolves with the full inbound response. -/
theorem C3_response_settlement (st : EngineState) (resp : JsValue) (ar : PendingRequest)
    (h : objGet st.pendingRequests (jsToString (resp.propD "id")) = some ar) :
    (resp.hasProp "result" = true → resp.hasProp "error" = true →
      JsonRpcWebsocket.handleResponse st resp =
        ([OutEvent.clearTimer ar.timeout,
          OutEvent.rejectFuture (jsToString (resp.propD "id")) (JsValue.vObj
            [("error", JsValue.vObj
              [("code", JsValue.vNum JsonRpcErrorCodes.INVALID_RESPONSE),
               ("message", JsValue.vStr
                 ("Invalid response. Either result or error must be set, but not both. " ++
                  ((jsStringify resp).getD "undefined")))]),
             ("id", ar.request.id),
             ("jsonrpc", JsValue.vStr JsonRpcWebsocket.jsonRpcVersion)])], st)) ∧
    (resp.hasProp "result" = false → resp.hasProp "error" = true →
      JsonRpcWebsocket.handleResponse st resp =
        ([OutEvent.clearTimer ar.timeout,
          OutEvent.rejectFuture (jsToString (resp.propD "id")) resp], st)) ∧
    (resp.hasProp "error" = false →
      JsonRpcWebsocket.handleResponse st resp =
        ([OutEvent.clearTimer ar.timeout,
          OutEvent.resolveFuture (jsToString (resp.propD "id")) resp], st)) := by
  refine ⟨fun h1 h2 => ?_, fun h1 h2 => ?_, fun h1 => ?_⟩
  · simp [JsonRpcWebsocket.handleResponse, h, h1, h2]
  · simp [JsonRpcWebsocket.handleResponse, h, h1, h2]
  · simp [JsonRpcWebsocket.handleResponse, h, h1]

/-- Witness for C3 on the dual result/error frame: the concrete pending
future is rejected with the synthetic INVALID_RESPONSE payload. -/
theorem C3_response_settlement_witness :
    objGet stPending.pendingRequests (jsToString (respBothFrame.propD "id")) =
      some entryA ∧
    respBothFrame.hasProp "result" = true ∧ respBothFrame.hasProp "error" = true ∧
    JsonRpcWebsocket.handleResponse stPending respBothFrame =
      ([OutEvent.clearTimer 7,
        OutEvent.rejectFuture "1" (JsValue.vObj
          [("error", JsValue.vObj
            [("code", JsValue.vNum JsonRpcErrorCodes.INVALID_RESPONSE),
             ("message", JsValue.vStr
               ("Invalid response. Either result or error must be set, but not both. " ++
                ((jsStringify respBothFrame).getD "undefined")))]),
           ("id", JsValue.vNum 1),
           ("jsonrpc", JsValue.vStr "2.0")])], stPending) :=
  ⟨rfl, rfl, rfl, (C3_response_settlement stPending respBothFrame entryA rfl).1 rfl rfl⟩

/-- C8: method lookup is case-invariant: after registration under any case
form, lookup through any case variant of the name finds the same handler
and dispatch invokes it; off removes the handler through any case variant;
and off on an unregistered name leaves the state unchanged. -/
theorem C8_case_insensitive (st : EngineState) (name variant : String) (h : RpcMethod)
    (hv : jsToLowerCase variant = jsToLowerCase name) :
    JsonRpcWebsocket.lookupMethod (JsonRpcWebsocket.«on» st name h) variant = some h ∧
    (∀ st2 : EngineState,
      JsonRpcWebsocket.lookupMethod (JsonRpcWebsocket.off st2 variant) name = none) ∧
    (JsonRpcWebsocket.lookupMethod st name = none → JsonRpcWebsocket.off st name = st) ∧
    (∀ req : JsonRpcRequest, req.method = variant →
      JsonRpcWebsocket.handleRequest (JsonRpcWebsocket.«on» st name h) req =
        JsonRpcWebsocket.invokeMethod (JsonRpcWebsocket.«on» st name h) h req) := by
  refine ⟨?_, ?_, ?_, ?_⟩
  · simp [JsonRpcWebsocket.lookupMethod, JsonRpcWebsocket.«on», hv, objGet_objSet_self]
  · intro st2
    simp only [JsonRpcWebsocket.lookupMethod, JsonRpcWebsocket.off]
    rw [← hv]
    exact objGet_objDelete_self st2.rpcMethods (jsToLowerCase variant)
  · intro hnone
    simp only [JsonRpcWebsocket.lookupMethod] at hnone
    simp [JsonRpcWebsocket.off, objDelete_eq_of_objGet_none _ _ hnone]
  · intro req hm
    have hsome : JsonRpcWebsocket.lookupMethod (JsonRpcWebsocket.«on» st name h)
        req.method = some h := by
      rw [hm]
      simp [JsonRpcWebsocket.lookupMethod, JsonRpcWebsocket.«on», hv, objGet_objSet_self]
    simp [JsonRpcWebsocket.handleRequest, hsome]

/-- Witness for C8: registering "Sum" and looking up "sUM" finds the same
handler. -/
theorem C8_case_insensitive_witness :
    jsToLowerCase "sUM" = jsToLowerCase "Sum" ∧
    JsonRpcWebsocket.lookupMethod (JsonRpcWebsocket.«on» stOpen "Sum" sumMethod) "sUM" =
      some sumMethod :=
  ⟨rfl, (C8_case_insensitive stOpen "Sum" "sUM" sumMethod rfl).1⟩

/-- C1 counterexample: a matching response does NOT destroy the pending
entry.  After the concrete session's only pending future is settled by a
matching response, the entry is still in the table, and delivering the
same response a second time finds the entry again and issues a second
settlement of the future — contradicting the claim that the first of
{response, timeout} removes the entry and makes the second a no-op that
cannot settle. -/
theorem C1_counterexample :
    objGet (JsonRpcWebsocket.handleResponse stPending respOkFrame).2.pendingRequests "1" =
      some entryA ∧
    (JsonRpcWebsocket.handleResponse
        (JsonRpcWebsocket.handleResponse stPending respOkFrame).2 respOkFrame).1 =
      [OutEvent.clearTimer 7, OutEvent.resolveFuture "1" respOkFrame] :=
  ⟨rfl, rfl⟩

/-- C1 (amended): the timeout path removes the entry (so a later matching
response finds nothing, settles no future and leaves the state unchanged,
reporting only on the global channel), while the response path does not
remove the entry — it cancels the entry's timer (its first event clears
that timer handle) and leaves the table unchanged.  Mutual exclusion of
settlement between response and timeout therefore rests on timer
cancellation and on removal-before-rejection in the timeout callback, not
on entry destruction by the response path. -/
theorem C1_amended (st : EngineState) (rid : Int) (ar : PendingRequest)
    (h : objGet st.pendingRequests (toString rid) = some ar) :
    (objGet (JsonRpcWebsocket.requestTimeoutFired st rid).2.pendingRequests
        (toString rid) = none ∧
     hasSettleEvt (JsonRpcWebsocket.requestTimeoutFired st rid).1 = true) ∧
    (∀ resp : JsValue, jsToString (resp.propD "id") = toString rid →
      hasSettleEvt (JsonRpcWebsocket.handleResponse
          (JsonRpcWebsocket.requestTimeoutFired st rid).2 resp).1 = false ∧
      (JsonRpcWebsocket.handleResponse
          (JsonRpcWebsocket.requestTimeoutFired st rid).2 resp).2 =
        (JsonRpcWebsocket.requestTimeoutFired st rid).2) ∧
    (∀ resp : JsValue, jsToString (resp.propD "id") = toString rid →
      (JsonRpcWebsocket.handleResponse st resp).1.head? =
        some (OutEvent.clearTimer ar.timeout) ∧
      (JsonRpcWebsocket.handleResponse st resp).2.pendingRequests =
        st.pendingRequests) := by
  refine ⟨⟨?_, ?_⟩, fun resp hk => ⟨?_, ?_⟩, fun resp hk => ⟨?_, ?_⟩⟩
  · simp [JsonRpcWebsocket.requestTimeoutFired, h, objGet_objDelete_self]
  · simp [JsonRpcWebsocket.requestTimeoutFired, h, hasSettleEvt, isSettleEvt]
  · have hn : objGet (JsonRpcWebsocket.requestTimeoutFired st rid).2.pendingRequests
        (jsToString (resp.propD "id")) = none := by
      rw [hk]
      simp [JsonRpcWebsocket.requestTimeoutFired, h, objGet_objDelete_self]
    simp [JsonRpcWebsocket.handleResponse, hn, hasSettleEvt, isSettleEvt]
  · have hn : objGet (JsonRpcWebsocket.requestTimeoutFired st rid).2.pendingRequests
        (jsToString (resp.propD "id")) = none := by
      rw [hk]
      simp [JsonRpcWebsocket.requestTimeoutFired, h, objGet_objDelete_self]
    simp [JsonRpcWebsocket.handleResponse, hn]
  · have hs : objGet st.pendingRequests (jsToString (resp.propD "id")) = some ar := by
      rw [hk]; exact h
    simp [JsonRpcWebsocket.handleResponse, hs]
  · have hs : objGet st.pendingRequests (jsToString (resp.propD "id")) = some ar := by
      rw [hk]; exact h
    simp [JsonRpcWebsocket.handleResponse, hs]

/-- Witness for C1 (amended) on the concrete pending session: the timeout
removes the entry and a late matching response settles nothing. -/
theorem C1_amended_witness :
    objGet stPending.pendingRequests (toString (1 : Int)) = some entryA ∧
    jsToString (respOkFrame.propD "id") = toString (1 : Int) ∧
    objGet (JsonRpcWebsocket.requestTimeoutFired stPending 1).2.pendingRequests
      (toString (1 : Int)) = none ∧
    hasSettleEvt (JsonRpcWebsocket.handleResponse
      (JsonRpcWebsocket.requestTimeoutFired stPending 1).2 respOkFrame).1 = false :=
  ⟨rfl, rfl, (C1_amended stPending 1 entryA rfl).1.1,
   ((C1_amended stPending 1 entryA rfl).2.1 respOkFrame rfl).1⟩

/-- C2 counterexample: a method-not-found failure IS reported on the
session's global error channel.  Dispatching a request for the
unregistered method "foo" on a fresh open session emits a global-error
event (followed by the error response), contradicting the claim that such
failures are never reported globally. -/
theorem C2_counterexample :
    hasGlobalErrorEvt (JsonRpcWebsocket.handleRequest stOpen reqFoo).events = true ∧
    (JsonRpcWebsocket.handleRequest stOpen reqFoo).events =
      [OutEvent.globalError JsonRpcErrorCodes.METHOD_NOT_FOUND
         "Method \x27foo\x27 was not found",
       OutEvent.send (JsValue.vObj
         [("jsonrpc", JsValue.vStr "2.0"),
          ("error", JsValue.vObj
            [("code", JsValue.vNum JsonRpcErrorCodes.METHOD_NOT_FOUND),
             ("message", JsValue.vStr "Method \x27foo\x27 was not found")]),
          ("id", JsValue.vNum 1), ("result", JsValue.vUndefined)])] :=
  ⟨rfl, rfl⟩

/-- C2 (amended): method-not-found and invalid-params failures are reported
BOTH on the global error channel and — exactly when the request's id is
truthy — as an error response to that id; a handler exception is never
reported globally and is delivered only as an error response exactly when
the id is truthy. -/
theorem C2_amended (st : EngineState) (req : JsonRpcRequest)
    (hopen : st.websocket = some WebsocketReadyStates.OPEN) :
    (JsonRpcWebsocket.lookupMethod st req.method = none →
      hasGlobalErrorEvt (JsonRpcWebsocket.handleRequest st req).events = true ∧
      hasSendEvt (JsonRpcWebsocket.handleRequest st req).events = req.id.truthy) ∧
    (∀ (m : RpcMethod) (msg : String),
      JsonRpcWebsocket.lookupMethod st req.method = some m →
      JsonRpcWebsocket.getRequestParams m req = Except.error msg →
      hasGlobalErrorEvt (JsonRpcWebsocket.handleRequest st req).events = true ∧
      hasSendEvt (JsonRpcWebsocket.handleRequest st req).events = req.id.truthy) ∧
    (∀ (m : RpcMethod) (args : List JsValue) (e : JsValue),
      JsonRpcWebsocket.lookupMethod st req.method = some m →
      JsonRpcWebsocket.getRequestParams m req = Except.ok args →
      m.run args = Except.error e →
      hasGlobalErrorEvt (JsonRpcWebsocket.handleRequest st req).events = false ∧
      hasSendEvt (JsonRpcWebsocket.handleRequest st req).events = req.id.truthy) := by
  refine ⟨fun hL => ?_, fun m msg hL hP => ?_, fun m args e hL hP hR => ?_⟩
  · cases hid : req.id.truthy with
    | true =>
        simp [JsonRpcWebsocket.handleRequest, hL,
          handleError_open st _ _ _ hopen, hid, hasGlobalErrorEvt, hasSendEvt,
          isGlobalErrorEvt, isSendEvt, HandleOutcome.events]
    | false =>
        simp [JsonRpcWebsocket.handleRequest, hL,
          handleError_open st _ _ _ hopen, hid, hasGlobalErrorEvt, hasSendEvt,
          isGlobalErrorEvt, isSendEvt, HandleOutcome.events]
  · cases hid : req.id.truthy with
    | true =>
        simp [JsonRpcWebsocket.handleRequest, hL, JsonRpcWebsocket.invokeMethod, hP,
          handleError_open st _ _ _ hopen, hid, hasGlobalErrorEvt, hasSendEvt,
          isGlobalErrorEvt, isSendEvt, HandleOutcome.events]
    | false =>
        simp [JsonRpcWebsocket.handleRequest, hL, JsonRpcWebsocket.invokeMethod, hP,
          handleError_open st _ _ _ hopen, hid, hasGlobalErrorEvt, hasSendEvt,
          isGlobalErrorEvt, isSendEvt, HandleOutcome.events]
  · cases hid : req.id.truthy with
    | true =>
        simp [JsonRpcWebsocket.handleRequest, hL, JsonRpcWebsocket.invokeMethod, hP, hR,
          hid, JsonRpcWebsocket.respondError,
          respond_open st req.id JsValue.vUndefined e hopen, truthy_vUndefined,
          hasGlobalErrorEvt, hasSendEvt, isGlobalErrorEvt, isSendEvt,
          HandleOutcome.events]
    | false =>
        simp [JsonRpcWebsocket.handleRequest, hL, JsonRpcWebsocket.invokeMethod, hP, hR,
          hid, hasGlobalErrorEvt, hasSendEvt, isGlobalErrorEvt, isSendEvt,
          HandleOutcome.events]

/-- Witness for C2 (amended): on the fresh open session, the request for
the unregistered "foo" produces a global error and (id 1 being truthy) an
error response. -/
theorem C2_amended_witness :
    stOpen.websocket = some WebsocketReadyStates.OPEN ∧
    JsonRpcWebsocket.lookupMethod stOpen reqFoo.method = none ∧
    hasGlobalErrorEvt (JsonRpcWebsocket.handleRequest stOpen reqFoo).events = true ∧
    hasSendEvt (JsonRpcWebsocket.handleRequest stOpen reqFoo).events = reqFoo.id.truthy :=
  ⟨rfl, rfl, ((C2_amended stOpen reqFoo rfl).1 rfl).1,
   ((C2_amended stOpen reqFoo rfl).1 rfl).2⟩

/-- C4 counterexample: a version-mismatched frame that carries an id but no
method (a response-shaped frame) gets NO error response back from an open
session — the engine only raises the global INVALID_REQUEST — contradicting
the claim that an error response is sent back whenever the inbound frame
carried an id. -/
theorem C4_counterexample :
    mismatchFrame.hasProp "id" = true ∧
    JsonRpcWebsocket.handleMessage stOpen (some mismatchFrame) =
      HandleOutcome.ok
        [OutEvent.globalError JsonRpcErrorCodes.INVALID_REQUEST
          "Invalid JSON RPC protocol version. Expecting 2.0, but got 1.0"] stOpen ∧
    hasSendEvt (JsonRpcWebsocket.handleMessage stOpen (some mismatchFrame)).events =
      false :=
  ⟨rfl, rfl, rfl⟩

/-- C4 (amended): a parsed frame whose jsonrpc field read succeeds but
differs from the fixed version string is routed to INVALID_REQUEST error
handling before any shape dispatch, its first event being the global
INVALID_REQUEST; an error response is additionally sent back exactly when
the frame has a method property AND a truthy id (not merely any id). -/
theorem C4_amended (st : EngineState) (data v : JsValue)
    (hv : data.getProp "jsonrpc" = some v)
    (hmis : (!v.truthy || !v.strictEqStr JsonRpcWebsocket.jsonRpcVersion) = true) :
    JsonRpcWebsocket.handleMessage st (some data) =
      JsonRpcWebsocket.handleError st JsonRpcErrorCodes.INVALID_REQUEST
        ("Invalid JSON RPC protocol version. Expecting " ++
         JsonRpcWebsocket.jsonRpcVersion ++ ", but got " ++ jsToString v)
        (JsonRpcWebsocket.inboundRequestId data) ∧
    (JsonRpcWebsocket.handleMessage st (some data)).events.head? =
      some (OutEvent.globalError JsonRpcErrorCodes.INVALID_REQUEST
        ("Invalid JSON RPC protocol version. Expecting " ++
         JsonRpcWebsocket.jsonRpcVersion ++ ", but got " ++ jsToString v)) ∧
    (st.websocket = some WebsocketReadyStates.OPEN →
      hasSendEvt (JsonRpcWebsocket.handleMessage st (some data)).events =
        ((data.truthy && data.hasProp "method") && (data.propD "id").truthy)) := by
  have heq : JsonRpcWebsocket.handleMessage st (some data) =
      JsonRpcWebsocket.handleError st JsonRpcErrorCodes.INVALID_REQUEST
        ("Invalid JSON RPC protocol version. Expecting " ++
         JsonRpcWebsocket.jsonRpcVersion ++ ", but got " ++ jsToString v)
        (JsonRpcWebsocket.inboundRequestId data) := by
    simp [JsonRpcWebsocket.handleMessage, hv, hmis]
  refine ⟨heq, ?_, ?_⟩
  · rw [heq]
    exact handleError_head st JsonRpcErrorCodes.INVALID_REQUEST _ _
  · intro hopen
    have hrid := inboundRequestId_truthy data
    rw [heq, handleError_open st _ _ _ hopen, ← hrid]
    cases ht : (JsonRpcWebsocket.inboundRequestId data).truthy <;>
      simp [ht, hasSendEvt, isSendEvt, HandleOutcome.events]

/-- Witness for C4 (amended) on the concrete mismatched frame: no response
is sent because the frame has no method property. -/
theorem C4_amended_witness :
    mismatchFrame.getProp "jsonrpc" = some (JsValue.vStr "1.0") ∧
    (!(JsValue.vStr "1.0").truthy ||
      !(JsValue.vStr "1.0").strictEqStr JsonRpcWebsocket.jsonRpcVersion) = true ∧
    stOpen.websocket = some WebsocketReadyStates.OPEN ∧
    hasSendEvt (JsonRpcWebsocket.handleMessage stOpen (some mismatchFrame)).events =
      ((mismatchFrame.truthy && mismatchFrame.hasProp "method") &&
        (mismatchFrame.propD "id").truthy) :=
  ⟨rfl, rfl, rfl, (C4_amended stOpen mismatchFrame (JsValue.vStr "1.0") rfl rfl).2.2 rfl⟩

/-- The forEach loop of the named-parameters branch, characterized: it
succeeds with the values of the declared names (in declared order) exactly
when no declared name is bound to a strictly-undefined (or absent) value,
and otherwise fails with the message naming the declared list and the
actual keys. -/
theorem collectNamedParams_spec (mname : String) (allNames : List String)
    (fields : List (String × JsValue)) (ns : List String) :
    JsonRpcWebsocket.collectNamedParams mname allNames fields ns =
      (if ∀ n ∈ ns, ((objGet fields n).getD JsValue.vUndefined).isUndefined = false
       then Except.ok (ns.map fun n => (objGet fields n).getD JsValue.vUndefined)
       else Except.error (JsonRpcWebsocket.namedParamsError mname allNames
         (fields.map Prod.fst))) := by
  induction ns with
  | nil => simp [JsonRpcWebsocket.collectNamedParams]
  | cons n rest ih =>
      cases hv : ((objGet fields n).getD JsValue.vUndefined).isUndefined with
      | true => simp [JsonRpcWebsocket.collectNamedParams, hv]
      | false =>
          by_cases hall : ∀ x ∈ rest,
              ((objGet fields x).getD JsValue.vUndefined).isUndefined = false
          · simp [JsonRpcWebsocket.collectNamedParams, hv, ih, if_pos hall]
          · simp [JsonRpcWebsocket.collectNamedParams, hv, ih, if_neg hall]

/-- C5 counterexample: a declared parameter bound to the falsy value 0 is
NOT treated as missing — adaptation succeeds and passes 0 — contradicting
the claim that a name bound to a falsy/empty value is treated identically
to a missing name (only strictly-undefined bindings are). -/
theorem C5_counterexample :
    reqFalsyParam.params = JsValue.vObj [("a", JsValue.vNum 0)] ∧
    (JsValue.vNum 0).truthy = false ∧
    JsonRpcWebsocket.getRequestParams oneParamMethod reqFalsyParam =
      Except.ok [JsValue.vNum 0] :=
  ⟨rfl, rfl, rfl⟩

/-- C5 (amended): for keyed-mapping params, adaptation succeeds exactly
when the key count equals the declared parameter count and every declared
name is bound to a value other than strictly-undefined (a missing name
reads as undefined; other falsy values such as null, 0, empty string or
false are accepted), yielding the bound values in declared order; any
deviation fails with the message naming the declared parameter list and
the mapping's actual keys, and dispatch reports that failure as
INVALID_PARAMS with the request's id. -/
theorem C5_named_params (method : RpcMethod) (req : JsonRpcRequest)
    (fields : List (String × JsValue)) (hp : req.params = JsValue.vObj fields) :
    JsonRpcWebsocket.getRequestParams method req =
      (if method.length = fields.length ∧
          (∀ n ∈ method.paramNames,
            ((objGet fields n).getD JsValue.vUndefined).isUndefined = false)
       then Except.ok (method.paramNames.map
              (fun n => (objGet fields n).getD JsValue.vUndefined))
       else Except.error (JsonRpcWebsocket.namedParamsError req.method
              method.paramNames (fields.map Prod.fst))) ∧
    (∀ (st : EngineState) (msg : String),
      JsonRpcWebsocket.lookupMethod st req.method = some method →
      JsonRpcWebsocket.getRequestParams method req = Except.error msg →
      JsonRpcWebsocket.handleRequest st req =
        JsonRpcWebsocket.handleError st JsonRpcErrorCodes.INVALID_PARAMS msg req.id) := by
  constructor
  · by_cases hlen : method.length = fields.length
    · simp [JsonRpcWebsocket.getRequestParams, hp, truthy_vObj, hlen,
        collectNamedParams_spec]
    · simp [JsonRpcWebsocket.getRequestParams, hp, truthy_vObj, hlen]
  · intro st msg hL hP
    simp [JsonRpcWebsocket.handleRequest, hL, JsonRpcWebsocket.invokeMethod, hP]

/-- Witness for C5 (amended) on the concrete falsy-bound request: the
characterization evaluates to acceptance of the 0-valued argument. -/
theorem C5_named_params_witness :
    reqFalsyParam.params = JsValue.vObj [("a", JsValue.vNum 0)] ∧
    JsonRpcWebsocket.getRequestParams oneParamMethod reqFalsyParam =
      Except.ok [JsValue.vNum 0] := by
  refine ⟨rfl, ?_⟩
  have h := (C5_named_params oneParamMethod reqFalsyParam
    [("a", JsValue.vNum 0)] rfl).1
  rw [h]
  rfl

/-- C6 counterexample: when the transport's send throws, `call` rejects
with INTERNAL_ERROR but the engine state is NOT unchanged — the request-id
counter has already been incremented (the id was allocated before the
send), contradicting the claim's "state unchanged on error". -/
theorem C6_counterexample :
    (JsonRpcWebsocket.call stOpen "test" JsValue.vUndefined true).1 =
      CallOutcome.rejected JsonRpcErrorCodes.INTERNAL_ERROR "Internal error." ∧
    stOpen.requestId = 0 ∧
    (JsonRpcWebsocket.call stOpen "test" JsValue.vUndefined true).2.1.requestId = 1 :=
  ⟨rfl, rfl, rfl⟩

/-- C6 (amended): when the session is not OPEN, `call` rejects immediately
with INTERNAL_ERROR, emits no event at all (the transport's send is never
reached) and leaves the whole state unchanged; when the session is OPEN
and the send throws, `call` rejects with INTERNAL_ERROR, creates no
pending-request entry and arms no timer — but the request-id counter has
already advanced by one. -/
theorem C6_call_failure (st : EngineState) (method : String) (params : JsValue) :
    (∀ sendFails : Bool,
      st.websocket = none ∨ JsonRpcWebsocket.state st ≠ WebsocketReadyStates.OPEN →
      JsonRpcWebsocket.call st method params sendFails =
        (CallOutcome.rejected JsonRpcErrorCodes.INTERNAL_ERROR
          "The websocket is not opened", st, [])) ∧
    (st.websocket = some WebsocketReadyStates.OPEN →
      (JsonRpcWebsocket.call st method params true).1 =
        CallOutcome.rejected JsonRpcErrorCodes.INTERNAL_ERROR "Internal error." ∧
      (JsonRpcWebsocket.call st method params true).2.1.pendingRequests =
        st.pendingRequests ∧
      hasArmTimerEvt (JsonRpcWebsocket.call st method params true).2.2 = false ∧
      (JsonRpcWebsocket.call st method params true).2.1.requestId =
        st.requestId + 1) := by
  constructor
  · intro sendFails hclosed
    simp [JsonRpcWebsocket.call, hclosed]
  · intro hopen
    have hguard : ¬(st.websocket = none ∨
        JsonRpcWebsocket.state st ≠ WebsocketReadyStates.OPEN) := by
      simp [hopen, JsonRpcWebsocket.state]
    refine ⟨?_, ?_, ?_, ?_⟩ <;>
      simp [JsonRpcWebsocket.call, hguard, hasArmTimerEvt, isArmTimerEvt]

/-- Witness for C6 (amended): on a closed session (no transport), the call
rejects with the not-opened INTERNAL_ERROR and nothing is sent; on the
open session with a throwing send, the pending table stays empty and no
timer is armed. -/
theorem C6_call_failure_witness :
    ({ stOpen with websocket := none } : EngineState).websocket = none ∧
    JsonRpcWebsocket.call { stOpen with websocket := none } "test" JsValue.vUndefined
      false =
      (CallOutcome.rejected JsonRpcErrorCodes.INTERNAL_ERROR
        "The websocket is not opened", { stOpen with websocket := none }, []) ∧
    stOpen.websocket = some WebsocketReadyStates.OPEN ∧
    hasArmTimerEvt (JsonRpcWebsocket.call stOpen "test" JsValue.vUndefined true).2.2 =
      false :=
  ⟨rfl,
   (C6_call_failure { stOpen with websocket := none } "test" JsValue.vUndefined).1
     false (Or.inl rfl),
   rfl,
   ((C6_call_failure stOpen "test" JsValue.vUndefined).2 rfl).2.2.1⟩

end JsonRpc
